import Mathlib

/-!
Verification development for the OpenFold protein-pipeline scripts of the
warp-blueprints repository.  The relevant code lives in three Python files:

  * manifests/openfold-protein/openfold-cpu/run_mmseq_pipeline.py
  * manifests/openfold-protein/openfold-cpu/run_cpu_pipeline.py
  * manifests/openfold-protein/openfold-gpu/run_gpu_inference.py

We shallowly embed the pure data manipulation of the scripts (FASTA-header
parsing, trivial A3M synthesis, staging-database cleanup, key derivation) and
the control flow of the MMseqs search-and-build pipeline and of the GPU
consumer, with the outcomes of external process invocations supplied as
explicit inputs.  File contents are modelled as lists of lines, file names as
strings, directory listings as lists of names.
-/

/-- Characters treated as whitespace by Python str.strip with no argument. -/
def pyIsSpace (c : Char) : Bool :=
  c = ' ' || c = '\t' || c = '\n' || c = '\r' || c = '\x0b' || c = '\x0c'

/-- Model of Python str.strip on the underlying character list: drop
whitespace from both ends. -/
def pyStripList (l : List Char) : List Char :=
  ((l.dropWhile pyIsSpace).reverse.dropWhile pyIsSpace).reverse

/-- Model of Python str.strip. -/
def pyStrip (s : String) : String := String.mk (pyStripList s.data)

/-- Model of the Python test line.startswith with the one-character
argument of the greater-than sign: true iff the first character is that
sign. -/
def startsWithGt (s : String) : Bool := s.data.head? == some '>'

/-- Model of the Python slice s[1:] : drop the first character. -/
def pyDrop1 (s : String) : String := String.mk (s.data.drop 1)

/-- Model of Python str.join with the empty separator. -/
def pyJoin : List String → String
  | [] => ""
  | l :: ls => l ++ pyJoin ls

/-- Model of Python s.startswith(p) for a general p; used for file-name
prefix checks. -/
def strStartsWith (s p : String) : Bool := p.data.isPrefixOf s.data

/-- Model of suffix matching as done by a glob pattern star-dot-ext: the
name ends with the extension. -/
def strEndsWith (s p : String) : Bool := p.data.isSuffixOf s.data

/-- A node of the filesystem, as probed by Path.is_file / Path.is_dir:
either a plain file, a directory with its listing (in operating-system
listing order), or nothing. -/
inductive FsNode where
  | file
  | dir (entries : List String)
  | absent
deriving DecidableEq

namespace MMseq

/-- From run_mmseq_pipeline.py, get_first_fasta_tag (lines 36-47): return
the first FASTA header (without the marker) as the tag used by OpenFold;
falls back to the sentinel "query" if no header is found, or if the header
name is empty after stripping. -/
def get_first_fasta_tag : List String → String
  | [] => "query"
  | line :: rest =>
    let l := pyStrip line
    if startsWithGt l then
      let name := pyStrip (pyDrop1 l)
      if name = "" then "query" else name
    else get_first_fasta_tag rest

/-- From run_mmseq_pipeline.py, write_trivial_a3m (lines 54-76): the
sequence lines kept for the trivial A3M: every line stripped, with blank
lines and header lines discarded. -/
def trivial_seq_lines (lines : List String) : List String :=
  (lines.map pyStrip).filter (fun l => !(l = "") && !(startsWithGt l))

/-- From run_mmseq_pipeline.py, write_trivial_a3m (lines 54-76): the two
lines written to the fallback A3M file: the header line (marker plus the
derived tag), then the concatenation of the kept sequence lines. -/
def write_trivial_a3m (lines : List String) : List String :=
  [">" ++ get_first_fasta_tag lines, pyJoin (trivial_seq_lines lines)]

/-- What check_mmseqs_db (run_mmseq_pipeline.py lines 83-93) logs: either
the reported database type, or a warning when the external dbtype probe
call exits with an error.  Both branches return normally. -/
inductive ProbeLog where
  | typed (out : String)
  | warned (err : String)
deriving DecidableEq

/-- From run_mmseq_pipeline.py, check_mmseqs_db (lines 83-93): run the
dbtype probe; on success log the type, on CalledProcessError log a
warning.  The function never raises and never aborts the run. -/
def check_mmseqs_db : Except String String → ProbeLog
  | .ok out => .typed (pyStrip out)
  | .error e => .warned e

/-- The two stages whose failure aborts run_mmseqs: createdb (ingest) and
search.  All later stage failures are caught and degrade to the trivial
A3M fallback. -/
inductive FatalStage where
  | createdb
  | search
deriving DecidableEq

/-- Outcomes of the external invocations made by run_mmseqs
(run_mmseq_pipeline.py lines 114-284), supplied as an explicit input to
the embedding.  a3mFiles are the name/content pairs found by the glob for
a3m files in the unpack directory after unpackdb. -/
structure ExtWorld where
  dbtypeProbe : Except String String
  createdbOk : Bool
  searchOk : Bool
  dbsizeProbe : Except String String
  result2msaOk : Bool
  unpackdbOk : Bool
  unpackDirExistsAfter : Bool
  a3mFiles : List (String × List String)

/-- Insertion step for sorting the unpacked a3m files by name, mirroring
the Python built-in sorted on paths. -/
def insortByName (x : String × List String) :
    List (String × List String) → List (String × List String)
  | [] => [x]
  | y :: ys => if x.1 < y.1 then x :: y :: ys else y :: insortByName x ys

/-- Sort the unpacked a3m files by name (Python sorted). -/
def sortByName : List (String × List String) → List (String × List String)
  | [] => []
  | x :: xs => insortByName x (sortByName xs)

/-- From run_mmseqs step 5 (lines 273-279): the glob for names ending in
the a3m extension in the unpack directory, sorted by name.  The star of a
pathlib glob pattern matches any name part, dot-leading names included,
so the pattern keeps exactly the names ending in the extension. -/
def sortedA3m (files : List (String × List String)) : List (String × List String) :=
  sortByName (files.filter (fun f => strEndsWith f.1 ".a3m"))

/-- Result and final-artifact writes of run_mmseqs after the step-0 probe:
the chain createdb, search, dbsize (informative, never fatal), result2msa,
unpackdb, then selection of the first sorted a3m file.  createdb and
search failures raise CalledProcessError, which propagates out of
run_mmseqs; result2msa and unpackdb failures are caught and fall back to
write_trivial_a3m, as do a missing unpack directory and an empty glob.
The first component is the run's outcome (content of the final a3m file
on success), the second the list of contents written to the final a3m
path, in order. -/
def run_mmseqs_steps (w : ExtWorld) (fasta : List String) :
    Except FatalStage (List String) × List (List String) :=
  if w.createdbOk = false then (.error .createdb, [])
  else if w.searchOk = false then (.error .search, [])
  else if w.result2msaOk = false then
    (.ok (write_trivial_a3m fasta), [write_trivial_a3m fasta])
  else if w.unpackdbOk = false then
    (.ok (write_trivial_a3m fasta), [write_trivial_a3m fasta])
  else if w.unpackDirExistsAfter = false then
    (.ok (write_trivial_a3m fasta), [write_trivial_a3m fasta])
  else
    match sortedA3m w.a3mFiles with
    | [] => (.ok (write_trivial_a3m fasta), [write_trivial_a3m fasta])
    | c :: _ => (.ok c.2, [c.2])

/-- From run_mmseq_pipeline.py, safe_rmdb (lines 96-111): the seven file
names probed to decide whether a staging database with a given name
already exists: the bare name and the standard MMseqs companion files. -/
def rmdbSuffixes : List String :=
  ["", ".dbtype", ".index", ".lookup", "_h", "_h.dbtype", "_h.index"]

/-- From run_mmseq_pipeline.py, safe_rmdb (lines 96-111), over a listing
fs of the scratch directory: if any of the seven probe names exists, run
the external rmdb call on the database name.  The external removal
(modelled from the documented staging-removal contract) deletes every
file sharing the database name as a prefix; if the call fails, only a
warning is logged and nothing is removed. -/
def safe_rmdb (rmdbOk : Bool) (fs : List String) (db : String) : List String :=
  if rmdbSuffixes.any (fun s => decide ((db ++ s) ∈ fs)) then
    if rmdbOk then fs.filter (fun f => !(strStartsWith f db)) else fs
  else fs

/-- A name directly inside the directory d: it extends d plus the path
separator and the remainder holds no further separator.  These are the
entries Path.iterdir yields for d in the listing model. -/
def isDirectChild (d f : String) : Bool :=
  strStartsWith f (d ++ "/") && !((f.data.drop (d ++ "/").data.length).contains '/')

/-- From run_mmseq_pipeline.py, run_mmseqs step 1 (lines 163-173): if the
unpack directory exists, each direct child is unlinked with the exception
swallowed, then rmdir is attempted with the exception swallowed.  unlink
removes a plain-file child and raises on a directory child, which
therefore survives along with everything beneath it (the loop never
recurses); rmdir succeeds only when nothing is left under the directory.
isDir tells which names are directories. -/
def removeUnpackDir (isDir : String → Bool) (fs : List String) (d : String) : List String :=
  if d ∈ fs then
    if (fs.filter (fun f => !(isDirectChild d f && !(isDir f)))).any
        (fun f => strStartsWith f (d ++ "/")) then
      fs.filter (fun f => !(isDirectChild d f && !(isDir f)))
    else (fs.filter (fun f => !(isDirectChild d f && !(isDir f)))).filter
        (fun f => !(f = d))
  else fs

/-- From run_mmseq_pipeline.py, run_mmseqs step 1 (lines 161-173): the
cleanup of stale staging state before createdb, for the protein name
pname: safe_rmdb on the result database, then on the msa database, then
the best-effort removal of the unpack directory.  The query database
handle (pname plus the queryDB tag) is not touched by this step. -/
def clean_stale_staging (rmOk1 rmOk2 : Bool) (isDir : String → Bool)
    (fs : List String) (pname : String) : List String :=
  removeUnpackDir isDir
    (safe_rmdb rmOk2 (safe_rmdb rmOk1 fs (pname ++ "_resultDB")) (pname ++ "_msaA3M_DB"))
    (pname ++ "_a3m_tmp")

/-- Full observable outcome of one run_mmseqs invocation. -/
structure RunOut where
  probeLog : ProbeLog
  result : Except FatalStage (List String)
  finalWrites : List (List String)

/-- From run_mmseq_pipeline.py, run_mmseqs (lines 114-284): step 0 probes
the reference database (check_mmseqs_db, logging only), then the staged
chain of external transformations runs.  fasta is the content of the
resolved input FASTA file, used by the fallback writer. -/
def run_mmseqs (w : ExtWorld) (fasta : List String) : RunOut :=
  ⟨check_mmseqs_db w.dbtypeProbe,
   (run_mmseqs_steps w fasta).1,
   (run_mmseqs_steps w fasta).2⟩

/-- From run_mmseq_pipeline.py, main (lines 419-432): the producer's
target key.  The alignment directory is the alignments root joined with
the tag derived from the first FASTA header; the caller-supplied protein
identifier plays no role in the key. -/
def targetKey (protein_id : String) (fastaContent : List String) : String :=
  get_first_fasta_tag fastaContent

/-- From run_mmseq_pipeline.py, main (lines 430-431): the artifact
directory chosen by the producer. -/
def target_align_dir (alignments_root : String) (protein_id : String)
    (fastaContent : List String) : String :=
  alignments_root ++ "/" ++ targetKey protein_id fastaContent

end MMseq

namespace CpuPipe

/-- From run_cpu_pipeline.py, find_fasta_for_protein (lines 15-34), with
the node found at the joined candidate path supplied explicitly: a plain
file is used directly; a directory is searched for the first name
matching the fasta, fa, faa extension tiers, in listing order; otherwise
FileNotFoundError is raised. -/
def find_fasta_for_protein (fasta_root protein : String) (candidate : FsNode) :
    Except String String :=
  let notFoundMsg :=
    "Could not find FASTA for protein " ++ protein ++ " under " ++ fasta_root
  match candidate with
  | .file => .ok (fasta_root ++ "/" ++ protein)
  | .dir entries =>
    match entries.filter (fun f => strEndsWith f ".fasta") with
    | f :: _ => .ok (fasta_root ++ "/" ++ protein ++ "/" ++ f)
    | [] =>
      match entries.filter (fun f => strEndsWith f ".fa") with
      | f :: _ => .ok (fasta_root ++ "/" ++ protein ++ "/" ++ f)
      | [] =>
        match entries.filter (fun f => strEndsWith f ".faa") with
        | f :: _ => .ok (fasta_root ++ "/" ++ protein ++ "/" ++ f)
        | [] => .error notFoundMsg
  | .absent => .error notFoundMsg

/-- From run_cpu_pipeline.py, main (lines 147-156): the alignment
directory for a protein is the precomputed-alignments root joined with
the caller-supplied protein identifier; the FASTA content is never
consulted for the key. -/
def targetKey (protein_id : String) (fastaContent : List String) : String :=
  protein_id

/-- From run_cpu_pipeline.py, main (line 156): the artifact directory
chosen by this pipeline variant. -/
def protein_align_dir (precomputed_root : String) (protein_id : String)
    (fastaContent : List String) : String :=
  precomputed_root ++ "/" ++ targetKey protein_id fastaContent

end CpuPipe

namespace GpuInf

/-- From run_gpu_inference.py, get_first_fasta_tag (lines 80-92): the
consumer-side copy of the header-tag derivation, character for character
the same algorithm as the producer's. -/
def get_first_fasta_tag : List String → String
  | [] => "query"
  | line :: rest =>
    let l := pyStrip line
    if startsWithGt l then
      let name := pyStrip (pyDrop1 l)
      if name = "" then "query" else name
    else get_first_fasta_tag rest

/-- From run_gpu_inference.py, find_fasta_for_protein (lines 56-77): the
consumer-side copy, character for character the same algorithm as in
run_cpu_pipeline.py. -/
def find_fasta_for_protein (fasta_root protein : String) (candidate : FsNode) :
    Except String String :=
  let notFoundMsg :=
    "Could not find FASTA for protein " ++ protein ++ " under " ++ fasta_root
  match candidate with
  | .file => .ok (fasta_root ++ "/" ++ protein)
  | .dir entries =>
    match entries.filter (fun f => strEndsWith f ".fasta") with
    | f :: _ => .ok (fasta_root ++ "/" ++ protein ++ "/" ++ f)
    | [] =>
      match entries.filter (fun f => strEndsWith f ".fa") with
      | f :: _ => .ok (fasta_root ++ "/" ++ protein ++ "/" ++ f)
      | [] =>
        match entries.filter (fun f => strEndsWith f ".faa") with
        | f :: _ => .ok (fasta_root ++ "/" ++ protein ++ "/" ++ f)
        | [] => .error notFoundMsg
  | .absent => .error notFoundMsg

/-- From run_gpu_inference.py, main (lines 235-237): the consumer's target
key, derived from the first FASTA header; the caller-supplied protein
identifier plays no role in the key. -/
def targetKey (protein_id : String) (fastaContent : List String) : String :=
  get_first_fasta_tag fastaContent

/-- The failures raised by the GPU consumer's main before and during
inference.  missingAlignments models the FileNotFoundError raised when
the expected per-target alignment directory is absent. -/
inductive GpuFailure where
  | missingAlignmentsRoot (root : String)
  | fastaNotFound (msg : String)
  | missingAlignments (targetId : String)
  | missingCheckpoint (path : String)
  | inferenceFailed
deriving DecidableEq

/-- External state consulted by run_gpu_inference.py main: whether the
alignments root is a directory, the node at the joined fasta candidate
path, the content of the resolved FASTA, the names of the existing
per-target subdirectories of the alignments root, whether the checkpoint
file exists, and whether the inference subprocess succeeds. -/
structure GpuWorld where
  alignRootIsDir : Bool
  fastaNode : FsNode
  fastaContent : List String
  alignSubdirs : List String
  checkpointIsFile : Bool
  inferenceOk : Bool

/-- Observable outcome of one consumer invocation: the final result and
whether the inference subprocess was ever started.  The script has no
alignment-computing step at all: the only subprocess it can start is the
inference wrapper (run_pretrained_openfold), launched deliberately
without any alignment-tool flags. -/
structure GpuOut where
  result : Except GpuFailure Unit
  inferenceInvoked : Bool

/-- From run_gpu_inference.py, main (lines 99-341): check the alignments
root, resolve the FASTA, derive the target key from its header, fail with
FileNotFoundError when the per-target alignment directory is missing,
check the checkpoint, then and only then invoke the inference subprocess.
The symlink/copy of the FASTA into the per-protein staging directory does
not affect the outcome and is omitted. -/
def run_gpu_main (w : GpuWorld) (protein_id fasta_root alignments_root checkpoint : String) :
    GpuOut :=
  if w.alignRootIsDir = false then
    ⟨.error (.missingAlignmentsRoot alignments_root), false⟩
  else
    match find_fasta_for_protein fasta_root protein_id w.fastaNode with
    | .error m => ⟨.error (.fastaNotFound m), false⟩
    | .ok _ =>
      let target_id := get_first_fasta_tag w.fastaContent
      if w.alignSubdirs.contains target_id = false then
        ⟨.error (.missingAlignments target_id), false⟩
      else if w.checkpointIsFile = false then
        ⟨.error (.missingCheckpoint checkpoint), false⟩
      else if w.inferenceOk then ⟨.ok (), true⟩
      else ⟨.error .inferenceFailed, true⟩

end GpuInf

/-- Record grammar of the row-oriented alignment format: walking the
lines, a line whose first character is the record marker opens a new
record (stored with its full header line); subsequent non-header lines
are concatenated into the record body.  The accumulator holds the record
currently being built. -/
def a3mRecordsAux : List String → Option (String × String) → List (String × String)
  | [], none => []
  | [], some r => [r]
  | l :: rest, none =>
    if startsWithGt l then a3mRecordsAux rest (some (l, ""))
    else a3mRecordsAux rest none
  | l :: rest, some r =>
    if startsWithGt l then r :: a3mRecordsAux rest (some (l, ""))
    else a3mRecordsAux rest (some (r.1, r.2 ++ l))

/-- The records of an alignment file given as a list of lines: pairs of a
header line and the concatenated body. -/
def a3mRecords (ls : List String) : List (String × String) :=
  a3mRecordsAux ls none

/-- Model of Python str.upper (used only to state what the spec predicts;
the scripts themselves never uppercase). -/
def pyUpper (s : String) : String := String.mk (s.data.map Char.toUpper)

-- String facts used throughout: append acts on the character data,
-- the empty string is a left identity, and the header test of an
-- appended marker.

theorem str_data_append (s t : String) : (s ++ t).data = s.data ++ t.data := rfl

theorem str_empty_append (s : String) : ("" ++ s : String) = s := by
  cases s
  rfl

theorem startsWithGt_gt_append (s : String) : startsWithGt (">" ++ s) = true := by
  cases s
  rfl

theorem startsWithGt_append_of_ne (l t : String)
    (hne : l ≠ "") (hl : startsWithGt l = false) :
    startsWithGt (l ++ t) = false := by
  rcases l with ⟨d⟩
  cases d with
  | nil => exact absurd rfl hne
  | cons c cs =>
    rw [show startsWithGt (String.mk (c :: cs) ++ t) = startsWithGt (String.mk (c :: cs)) from rfl]
    exact hl

theorem strStartsWith_iff (s p : String) :
    strStartsWith s p = true ↔ p.data <+: s.data := by
  simp [strStartsWith, List.isPrefixOf_iff_prefix]

theorem strStartsWith_append (p t : String) : strStartsWith (p ++ t) p = true := by
  rw [strStartsWith_iff, str_data_append]
  exact List.prefix_append _ _

-- sanity examples for the tag derivation
example : MMseq.get_first_fasta_tag [">protein1", "MKTAYIAK"] = "protein1" := by decide
example : MMseq.get_first_fasta_tag ["MKT", "AYI"] = "query" := by decide
example : MMseq.get_first_fasta_tag [] = "query" := by decide
example : MMseq.get_first_fasta_tag ["  > prot 7  ", "SEQ"] = "prot 7" := by decide
example : MMseq.get_first_fasta_tag [">  "] = "query" := by decide
example : MMseq.write_trivial_a3m [">p1", " mkt ", "", "ayi"] = [">p1", "mktayi"] := by decide

-- sanity examples for the pipeline model
example :
    (MMseq.run_mmseqs ⟨.ok "Aminoacid", true, true, .ok "1", true, true, true,
      [("0.a3m", ["msa line"])]⟩ [">p1", "MKT"]).result = .ok ["msa line"] := rfl
example :
    (MMseq.run_mmseqs ⟨.ok "Aminoacid", true, true, .ok "1", false, true, true,
      [("0.a3m", ["msa line"])]⟩ [">p1", "MKT"]).result = .ok [">p1", "MKT"] := rfl

/-- Claim C1: in run_mmseqs, a failure of the Ingest step (createdb) or of
the Search step (search) aborts the whole run with an error, while a
failure of the Alignment Build step (result2msa) or of the Export step
(unpackdb), or the Export step producing no decodable a3m output (missing
unpack directory or empty glob), degrades: the pipeline writes the
single-sequence fallback artifact and returns it as a successful terminal
result. -/
theorem C1_fallback_policy (w : MMseq.ExtWorld) (fasta : List String) :
    ((MMseq.run_mmseqs { w with createdbOk := false } fasta).result
        = .error .createdb) ∧
    ((MMseq.run_mmseqs { w with createdbOk := true, searchOk := false } fasta).result
        = .error .search) ∧
    ((MMseq.run_mmseqs
        { w with createdbOk := true, searchOk := true, result2msaOk := false } fasta).result
        = .ok (MMseq.write_trivial_a3m fasta)
      ∧ (MMseq.run_mmseqs
        { w with createdbOk := true, searchOk := true, result2msaOk := false } fasta).finalWrites
        = [MMseq.write_trivial_a3m fasta]) ∧
    ((MMseq.run_mmseqs
        { w with createdbOk := true, searchOk := true, result2msaOk := true,
                 unpackdbOk := false } fasta).result
        = .ok (MMseq.write_trivial_a3m fasta)
      ∧ (MMseq.run_mmseqs
        { w with createdbOk := true, searchOk := true, result2msaOk := true,
                 unpackdbOk := false } fasta).finalWrites
        = [MMseq.write_trivial_a3m fasta]) ∧
    ((MMseq.run_mmseqs
        { w with createdbOk := true, searchOk := true, result2msaOk := true,
                 unpackdbOk := true, unpackDirExistsAfter := false } fasta).result
        = .ok (MMseq.write_trivial_a3m fasta)
      ∧ (MMseq.run_mmseqs
        { w with createdbOk := true, searchOk := true, result2msaOk := true,
                 unpackdbOk := true, unpackDirExistsAfter := false } fasta).finalWrites
        = [MMseq.write_trivial_a3m fasta]) ∧
    ((MMseq.run_mmseqs
        { w with createdbOk := true, searchOk := true, result2msaOk := true,
                 unpackdbOk := true, unpackDirExistsAfter := true,
                 a3mFiles := [] } fasta).result
        = .ok (MMseq.write_trivial_a3m fasta)
      ∧ (MMseq.run_mmseqs
        { w with createdbOk := true, searchOk := true, result2msaOk := true,
                 unpackdbOk := true, unpackDirExistsAfter := true,
                 a3mFiles := [] } fasta).finalWrites
        = [MMseq.write_trivial_a3m fasta]) :=
  ⟨rfl, rfl, ⟨rfl, rfl⟩, ⟨rfl, rfl⟩, ⟨rfl, rfl⟩, rfl, rfl⟩

/-- Claim C9: if the Ingest step (createdb) fails, run_mmseqs terminates
with a failure and nothing is ever written to the final artifact path;
moreover in every run the final artifact is only written when both the
Ingest and the Search step succeeded. -/
theorem C9_no_artifact_on_ingest_failure (w : MMseq.ExtWorld) (fasta : List String) :
    ((MMseq.run_mmseqs { w with createdbOk := false } fasta).result = .error .createdb
      ∧ (MMseq.run_mmseqs { w with createdbOk := false } fasta).finalWrites = []) ∧
    ((MMseq.run_mmseqs w fasta).finalWrites = []
      ∨ (w.createdbOk = true ∧ w.searchOk = true)) := by
  refine ⟨⟨rfl, rfl⟩, ?_⟩
  rcases hc : w.createdbOk with _ | _
  · left
    simp [MMseq.run_mmseqs, MMseq.run_mmseqs_steps, hc]
  · rcases hs : w.searchOk with _ | _
    · left
      simp [MMseq.run_mmseqs, MMseq.run_mmseqs_steps, hc, hs]
    · right
      exact ⟨by simp [hc], by simp [hs]⟩

/-- Claim C5, counterexample: when the external dbtype probe call exits
with an error but every later stage succeeds, check_mmseqs_db merely logs
a warning and the run proceeds to a successful terminal result, so the
claimed fatal InvalidDatabase abort does not happen. -/
theorem C5_counterexample :
    (MMseq.run_mmseqs
      ⟨.error "probe failed", true, true, .ok "1", true, true, true,
        [("0.a3m", ["msa line"])]⟩ [">p1", "MKT"]).probeLog = .warned "probe failed"
    ∧ (MMseq.run_mmseqs
      ⟨.error "probe failed", true, true, .ok "1", true, true, true,
        [("0.a3m", ["msa line"])]⟩ [">p1", "MKT"]).result = .ok ["msa line"] :=
  ⟨rfl, rfl⟩

/-- Claim C5, amended: when the dbtype probe call exits with an error, the
Reference Database Guard logs a warning (it is invoked exactly once, with
no retry) and the run proceeds exactly as if the probe had succeeded: the
probe outcome has no effect on the run's result or on what is written. -/
theorem C5_probe_failure_not_fatal (w : MMseq.ExtWorld) (e s : String)
    (fasta : List String) :
    (MMseq.run_mmseqs { w with dbtypeProbe := .error e } fasta).probeLog = .warned e
    ∧ (MMseq.run_mmseqs { w with dbtypeProbe := .error e } fasta).result
        = (MMseq.run_mmseqs { w with dbtypeProbe := .ok s } fasta).result
    ∧ (MMseq.run_mmseqs { w with dbtypeProbe := .error e } fasta).finalWrites
        = (MMseq.run_mmseqs { w with dbtypeProbe := .ok s } fasta).finalWrites :=
  ⟨rfl, rfl, rfl⟩

-- The two copies of the header-tag derivation (producer side in
-- run_mmseq_pipeline.py, consumer side in run_gpu_inference.py) agree on
-- every input.

theorem tag_mm_eq_gpu : ∀ ls : List String,
    MMseq.get_first_fasta_tag ls = GpuInf.get_first_fasta_tag ls
  | [] => rfl
  | line :: rest => by
    unfold MMseq.get_first_fasta_tag GpuInf.get_first_fasta_tag
    by_cases h : startsWithGt (pyStrip line) = true
    · simp [h]
    · simp only [Bool.not_eq_true] at h
      simp [h, tag_mm_eq_gpu rest]

/-- Claim C2, counterexample: the alignment-producing variant
run_cpu_pipeline keys its artifact directory by the caller-supplied
protein identifier, while the consumer run_gpu_inference derives the key
from the first FASTA header; on the identifier protein1.fasta with header
line of protein1 the two keys differ, so producer and consumer do not
land on the same artifact directory. -/
theorem C2_counterexample :
    CpuPipe.targetKey "protein1.fasta" [">protein1", "MKTAYIAK"] = "protein1.fasta"
    ∧ GpuInf.targetKey "protein1.fasta" [">protein1", "MKTAYIAK"] = "protein1"
    ∧ CpuPipe.targetKey "protein1.fasta" [">protein1", "MKTAYIAK"]
        ≠ GpuInf.targetKey "protein1.fasta" [">protein1", "MKTAYIAK"] := by
  decide

/-- Claim C2, amended: the MMseqs producer (run_mmseq_pipeline main) and
the consumer (run_gpu_inference main) compute extensionally equal target
keys from the same sequence content, and hence the same artifact
directory under any alignments root; the other producing variant
(run_cpu_pipeline main) instead keys by the caller-supplied identifier,
which can differ from the consumer's key (see the counterexample). -/
theorem C2_producer_consumer_key_agree (root pid : String) (content : List String) :
    MMseq.targetKey pid content = GpuInf.targetKey pid content
    ∧ MMseq.target_align_dir root pid content
        = root ++ "/" ++ GpuInf.targetKey pid content := by
  refine ⟨tag_mm_eq_gpu content, ?_⟩
  unfold MMseq.target_align_dir MMseq.targetKey GpuInf.targetKey
  rw [tag_mm_eq_gpu content]

-- The definitional one-step equation of the tag derivation, and the fact
-- that skipping leading non-header lines does not change the derived tag.

theorem tag_cons (a : String) (t : List String) :
    MMseq.get_first_fasta_tag (a :: t)
      = if startsWithGt (pyStrip a) then
          (if pyStrip (pyDrop1 (pyStrip a)) = "" then "query"
           else pyStrip (pyDrop1 (pyStrip a)))
        else MMseq.get_first_fasta_tag t := rfl

theorem tag_append_nonheader (pre rest : List String)
    (h : ∀ l ∈ pre, startsWithGt (pyStrip l) = false) :
    MMseq.get_first_fasta_tag (pre ++ rest) = MMseq.get_first_fasta_tag rest := by
  induction pre with
  | nil => rfl
  | cons a t ih =>
    have ha := h a (List.mem_cons_self a t)
    rw [List.cons_append, tag_cons]
    simp only [ha, Bool.false_eq_true, if_false]
    exact ih (fun l hl => h l (List.mem_cons_of_mem a hl))

/-- Claim C3, counterexample: for a sequence file whose first header line
is the marker followed by whitespace only, the code returns the sentinel
"query" rather than the trimmed (empty) header content the claim
prescribes for every header. -/
theorem C3_counterexample :
    MMseq.get_first_fasta_tag [">" ++ "  "] = "query"
    ∧ pyStrip "  " = ""
    ∧ MMseq.get_first_fasta_tag [">" ++ "  "] ≠ pyStrip "  " := by
  decide

/-- Claim C3, amended: for any sequence file whose first header line
(the first line that, once stripped, starts with the record marker)
carries a name that is nonempty after trimming, get_first_fasta_tag
returns that name trimmed of surrounding whitespace; for a file with no
header line at all, or an empty file, it returns the sentinel "query".
(When the name trims to empty the code also returns the sentinel; that
case is claim C10.) -/
theorem C3_first_header_tag :
    (∀ pre line rest, (∀ l ∈ pre, startsWithGt (pyStrip l) = false) →
        startsWithGt (pyStrip line) = true →
        pyStrip (pyDrop1 (pyStrip line)) ≠ "" →
        MMseq.get_first_fasta_tag (pre ++ line :: rest)
          = pyStrip (pyDrop1 (pyStrip line)))
    ∧ (∀ lines, (∀ l ∈ lines, startsWithGt (pyStrip l) = false) →
        MMseq.get_first_fasta_tag lines = "query") := by
  constructor
  · intro pre line rest hpre hline hname
    rw [tag_append_nonheader pre (line :: rest) hpre, tag_cons]
    simp [hline, hname]
  · intro lines h
    have := tag_append_nonheader lines [] h
    rw [List.append_nil] at this
    exact this

/-- Witness for claim C3: a concrete file with one leading sequence line
and the header of name one, and a concrete header-less file. -/
theorem C3_first_header_tag_witness :
    MMseq.get_first_fasta_tag (["MKT"] ++ " >name one " :: ["SEQ"])
      = pyStrip (pyDrop1 (pyStrip " >name one "))
    ∧ MMseq.get_first_fasta_tag ["MKT", "AYI"] = "query" :=
  ⟨C3_first_header_tag.1 ["MKT"] " >name one " ["SEQ"]
      (by decide) (by decide) (by decide),
   C3_first_header_tag.2 ["MKT", "AYI"] (by decide)⟩

/-- Claim C10: for a sequence file whose first header line is the marker
followed only by whitespace (a present-but-empty header name),
get_first_fasta_tag also returns the sentinel "query". -/
theorem C10_empty_header_sentinel (pre : List String) (line : String)
    (rest : List String)
    (hpre : ∀ l ∈ pre, startsWithGt (pyStrip l) = false)
    (hline : startsWithGt (pyStrip line) = true)
    (hname : pyStrip (pyDrop1 (pyStrip line)) = "") :
    MMseq.get_first_fasta_tag (pre ++ line :: rest) = "query" := by
  rw [tag_append_nonheader pre (line :: rest) hpre, tag_cons]
  simp [hline, hname]

/-- Witness for claim C10: a concrete file whose header line is the
marker followed by a space and a tab. -/
theorem C10_empty_header_sentinel_witness :
    MMseq.get_first_fasta_tag (["MKT"] ++ "> \t " :: ["AYI"]) = "query" :=
  C10_empty_header_sentinel ["MKT"] "> \t " ["AYI"]
    (by decide) (by decide) (by decide)

-- The concatenation of the kept sequence lines of the trivial A3M never
-- looks like a header line: every kept line is nonempty after stripping
-- and does not start with the marker.

theorem startsWithGt_pyJoin_trivial (lines : List String) :
    startsWithGt (pyJoin (MMseq.trivial_seq_lines lines)) = false := by
  cases h : MMseq.trivial_seq_lines lines with
  | nil => rfl
  | cons a t =>
    have ha : a ∈ MMseq.trivial_seq_lines lines := by
      rw [h]
      exact List.mem_cons_self a t
    have hp := List.of_mem_filter ha
    simp only [Bool.and_eq_true, Bool.not_eq_true', decide_eq_false_iff_not] at hp
    exact startsWithGt_append_of_ne a (pyJoin t) hp.1 hp.2

/-- Claim C4, counterexample: the fallback writer does not uppercase the
sequence: on a lowercase input it writes the sequence lines as stripped
but with their case preserved, not the uppercased sequence the claim
prescribes. -/
theorem C4_counterexample :
    MMseq.write_trivial_a3m [">p1", "mkt"] = [">p1", "mkt"]
    ∧ pyUpper "mkt" = "MKT"
    ∧ MMseq.write_trivial_a3m [">p1", "mkt"] ≠ [">p1", pyUpper "mkt"] := by
  decide

/-- Claim C4, amended: the degraded single-sequence artifact written by
write_trivial_a3m contains exactly one record: the header line is the
marker plus the derived target key and the body is the input's sequence
lines, each stripped of surrounding whitespace (blank and header lines
dropped), concatenated with their case preserved — not uppercased; in
particular for the input of header protein1 and sequence MKTAYIAK the
artifact reads exactly those two lines back. -/
theorem C4_trivial_single_record (lines : List String) :
    a3mRecords (MMseq.write_trivial_a3m lines)
      = [(">" ++ MMseq.get_first_fasta_tag lines,
          pyJoin (MMseq.trivial_seq_lines lines))]
    ∧ MMseq.write_trivial_a3m [">protein1", "MKTAYIAK"]
      = [">protein1", "MKTAYIAK"] := by
  constructor
  · show a3mRecordsAux
        [">" ++ MMseq.get_first_fasta_tag lines,
         pyJoin (MMseq.trivial_seq_lines lines)] none = _
    rw [show a3mRecordsAux
          [">" ++ MMseq.get_first_fasta_tag lines,
           pyJoin (MMseq.trivial_seq_lines lines)] none
        = if startsWithGt (">" ++ MMseq.get_first_fasta_tag lines) then
            a3mRecordsAux [pyJoin (MMseq.trivial_seq_lines lines)]
              (some (">" ++ MMseq.get_first_fasta_tag lines, ""))
          else a3mRecordsAux [pyJoin (MMseq.trivial_seq_lines lines)] none
        from rfl]
    rw [if_pos (by rw [startsWithGt_gt_append])]
    rw [show a3mRecordsAux [pyJoin (MMseq.trivial_seq_lines lines)]
          (some (">" ++ MMseq.get_first_fasta_tag lines, ""))
        = if startsWithGt (pyJoin (MMseq.trivial_seq_lines lines)) then
            (">" ++ MMseq.get_first_fasta_tag lines, "")
              :: a3mRecordsAux [] (some (pyJoin (MMseq.trivial_seq_lines lines), ""))
          else
            [(">" ++ MMseq.get_first_fasta_tag lines,
              "" ++ pyJoin (MMseq.trivial_seq_lines lines))]
        from rfl]
    rw [if_neg (by rw [startsWithGt_pyJoin_trivial]; exact Bool.false_ne_true)]
    rw [str_empty_append]
  · decide

-- Machinery for the staging-cleanup claims: the cleanup steps only ever
-- shrink the listing; a triggered removal eliminates every standard
-- companion file of the handle; and the child-implies-directory
-- well-formedness of a listing survives the database removals.

theorem safe_rmdb_subset (ok : Bool) (fs : List String) (db : String) :
    ∀ f ∈ MMseq.safe_rmdb ok fs db, f ∈ fs := by
  intro f hf
  unfold MMseq.safe_rmdb at hf
  split at hf
  · split at hf
    · exact List.mem_of_mem_filter hf
    · exact hf
  · exact hf

theorem removeUnpackDir_subset (isDir : String → Bool) (fs : List String) (d : String) :
    ∀ f ∈ MMseq.removeUnpackDir isDir fs d, f ∈ fs := by
  intro f hf
  unfold MMseq.removeUnpackDir at hf
  split at hf
  · split at hf
    · exact List.mem_of_mem_filter hf
    · exact List.mem_of_mem_filter (List.mem_of_mem_filter hf)
  · exact hf

theorem isDirectChild_startsWith (d f : String)
    (h : MMseq.isDirectChild d f = true) : strStartsWith f (d ++ "/") = true := by
  unfold MMseq.isDirectChild at h
  simp only [Bool.and_eq_true] at h
  exact h.1

theorem removeUnpackDir_removes_file_child (isDir : String → Bool)
    (fs : List String) (d f : String)
    (hwfd : ∀ g ∈ fs, strStartsWith g (d ++ "/") = true → d ∈ fs)
    (hchild : MMseq.isDirectChild d f = true) (hfile : isDir f = false) :
    f ∉ MMseq.removeUnpackDir isDir fs d := by
  intro hmem
  unfold MMseq.removeUnpackDir at hmem
  split at hmem
  next hd =>
    have hf1 : f ∈ fs.filter (fun g => !(MMseq.isDirectChild d g && !(isDir g))) := by
      split at hmem
      · exact hmem
      · exact List.mem_of_mem_filter hmem
    have hpred := List.of_mem_filter hf1
    rw [hchild, hfile] at hpred
    exact absurd hpred (by decide)
  next hd =>
    exact hd (hwfd f hmem (isDirectChild_startsWith d f hchild))

theorem removeUnpackDir_flat (isDir : String → Bool) (fs : List String) (d : String)
    (hwfd : ∀ g ∈ fs, strStartsWith g (d ++ "/") = true → d ∈ fs)
    (hflat : ∀ g ∈ fs, strStartsWith g (d ++ "/") = true →
      MMseq.isDirectChild d g = true ∧ isDir g = false) :
    d ∉ MMseq.removeUnpackDir isDir fs d
    ∧ ∀ f ∈ MMseq.removeUnpackDir isDir fs d,
        strStartsWith f (d ++ "/") = false := by
  unfold MMseq.removeUnpackDir
  split
  next hd =>
    have hnone : ∀ g ∈ fs.filter (fun g => !(MMseq.isDirectChild d g && !(isDir g))),
        strStartsWith g (d ++ "/") = false := by
      intro g hg
      rcases List.mem_filter.mp hg with ⟨hgmem, hgpred⟩
      cases hsw : strStartsWith g (d ++ "/") with
      | false => rfl
      | true =>
        rcases hflat g hgmem hsw with ⟨hdc, hdf⟩
        rw [hdc, hdf] at hgpred
        exact absurd hgpred (by decide)
    have hcond : ¬ ((fs.filter (fun g => !(MMseq.isDirectChild d g && !(isDir g)))).any
        (fun g => strStartsWith g (d ++ "/")) = true) := by
      intro hc
      rcases List.any_eq_true.mp hc with ⟨g, hg, hgp⟩
      rw [hnone g hg] at hgp
      exact absurd hgp (by decide)
    rw [if_neg hcond]
    constructor
    · intro hmem
      have hpred := List.of_mem_filter hmem
      simp at hpred
    · intro f hf
      exact hnone f (List.mem_of_mem_filter hf)
  next hd =>
    constructor
    · exact hd
    · intro f hf
      cases hsw : strStartsWith f (d ++ "/") with
      | false => rfl
      | true => exact absurd (hwfd f hf hsw) hd

theorem safe_rmdb_removes (fs : List String) (db s : String)
    (hs : s ∈ MMseq.rmdbSuffixes) :
    (db ++ s) ∉ MMseq.safe_rmdb true fs db := by
  unfold MMseq.safe_rmdb
  split
  · simp only [if_true]
    intro hmem
    have hp := List.of_mem_filter hmem
    rw [strStartsWith_append db s] at hp
    exact absurd hp (by decide)
  · rename_i hany
    simp only [List.any_eq_true, decide_eq_true_eq, not_exists] at hany
    intro hmem
    exact hany s ⟨hs, hmem⟩

theorem strStartsWith_trans_dir (f d db : String)
    (hd : strStartsWith d db = true)
    (hf : strStartsWith f (d ++ "/") = true) :
    strStartsWith f db = true := by
  rw [strStartsWith_iff] at hd hf ⊢
  refine hd.trans (List.IsPrefix.trans ?_ hf)
  rw [str_data_append]
  exact List.prefix_append _ _

theorem safe_rmdb_keeps_dir (ok : Bool) (fs : List String) (db d : String)
    (h : ∀ f ∈ fs, strStartsWith f (d ++ "/") = true → d ∈ fs) :
    ∀ f ∈ MMseq.safe_rmdb ok fs db, strStartsWith f (d ++ "/") = true →
      d ∈ MMseq.safe_rmdb ok fs db := by
  intro f hf hpref
  unfold MMseq.safe_rmdb at hf ⊢
  split at hf
  next hany =>
    rw [if_pos hany]
    split at hf
    next hok =>
      rw [if_pos hok]
      rcases List.mem_filter.mp hf with ⟨hfmem, hfpred⟩
      simp only [Bool.not_eq_true'] at hfpred
      refine List.mem_filter.mpr ⟨h f hfmem hpref, ?_⟩
      simp only [Bool.not_eq_true']
      cases hcon : strStartsWith d db with
      | false => rfl
      | true =>
        exact absurd (strStartsWith_trans_dir f d db hcon hpref)
          (by simp [hfpred])
    next hok =>
      rw [if_neg hok]
      exact h f hf hpref
  next hany =>
    rw [if_neg hany]
    exact h f hf hpref

/-- Claim C6, counterexample, in four parts, each a concrete listing on
which the reset leaves a file sharing a staging handle's name prefix:
(a) the query database handle is never reset, so a stale query-database
file from a prior run with the same protein name survives; (b) a file
sharing the result handle's prefix under a name other than the seven
standard companion names is not detected, so no removal is triggered and
it survives; (c) when the external rmdb call fails, the stale standard
file survives (the failure is only logged); (d) a subdirectory nested in
the unpack directory survives together with its content and keeps the
directory alive, because the cleanup only unlinks direct children and
swallows the failure on the directory child. -/
theorem C6_counterexample :
    (MMseq.clean_stale_staging true true (fun _ => false)
        ["x.fasta_queryDB"] "x.fasta" = ["x.fasta_queryDB"]
      ∧ strStartsWith "x.fasta_queryDB" ("x.fasta" ++ "_queryDB") = true)
    ∧ (MMseq.clean_stale_staging true true (fun _ => false)
        ["p_resultDB.weird"] "p" = ["p_resultDB.weird"]
      ∧ strStartsWith "p_resultDB.weird" ("p" ++ "_resultDB") = true)
    ∧ (MMseq.clean_stale_staging false true (fun _ => false)
        ["p_resultDB.dbtype"] "p" = ["p_resultDB.dbtype"]
      ∧ strStartsWith "p_resultDB.dbtype" ("p" ++ "_resultDB") = true)
    ∧ (MMseq.clean_stale_staging true true
        (fun f => f = "p_a3m_tmp" || f = "p_a3m_tmp/sub")
        ["p_a3m_tmp", "p_a3m_tmp/sub", "p_a3m_tmp/sub/x"] "p"
        = ["p_a3m_tmp", "p_a3m_tmp/sub", "p_a3m_tmp/sub/x"]
      ∧ strStartsWith "p_a3m_tmp/sub/x" ("p" ++ "_a3m_tmp") = true) := by
  decide

/-- Claim C6, amended: before creating new staging databases, the run
resets the result database, the alignment (msa) database and the unpack
directory, but never the query database.  For the two database handles a
stale database is detected only through the seven standard companion
file names, and removal is best-effort: when the external rmdb call
succeeds, no standard companion file of the handle survives the reset.
For the unpack directory only direct children are unlinked with failures
swallowed: every plain-file direct child is removed, and when everything
beneath the directory is a plain-file direct child the directory itself
is removed too and nothing beneath it remains (stated for well-formed
listings in which a child entry implies the directory entry). -/
theorem C6_staging_reset_scope (p : String) (fs : List String) (s : String)
    (isDir : String → Bool)
    (hs : s ∈ MMseq.rmdbSuffixes)
    (hwf : ∀ f ∈ fs, strStartsWith f (p ++ "_a3m_tmp" ++ "/") = true →
      (p ++ "_a3m_tmp") ∈ fs) :
    ((p ++ "_resultDB" ++ s) ∉ MMseq.clean_stale_staging true true isDir fs p)
    ∧ ((p ++ "_msaA3M_DB" ++ s) ∉ MMseq.clean_stale_staging true true isDir fs p)
    ∧ (∀ f, MMseq.isDirectChild (p ++ "_a3m_tmp") f = true → isDir f = false →
        f ∉ MMseq.clean_stale_staging true true isDir fs p)
    ∧ ((∀ f ∈ fs, strStartsWith f (p ++ "_a3m_tmp" ++ "/") = true →
          MMseq.isDirectChild (p ++ "_a3m_tmp") f = true ∧ isDir f = false) →
        (p ++ "_a3m_tmp") ∉ MMseq.clean_stale_staging true true isDir fs p
        ∧ ∀ f ∈ MMseq.clean_stale_staging true true isDir fs p,
            strStartsWith f (p ++ "_a3m_tmp" ++ "/") = false) := by
  have h1 := safe_rmdb_keeps_dir true fs (p ++ "_resultDB") (p ++ "_a3m_tmp") hwf
  have h2 := safe_rmdb_keeps_dir true (MMseq.safe_rmdb true fs (p ++ "_resultDB"))
      (p ++ "_msaA3M_DB") (p ++ "_a3m_tmp") h1
  refine ⟨?_, ?_, ?_, ?_⟩
  · intro hmem
    unfold MMseq.clean_stale_staging at hmem
    have hmem2 := removeUnpackDir_subset isDir _ _ _ hmem
    have hmem1 := safe_rmdb_subset true _ _ _ hmem2
    exact safe_rmdb_removes fs (p ++ "_resultDB") s hs hmem1
  · intro hmem
    unfold MMseq.clean_stale_staging at hmem
    have hmem2 := removeUnpackDir_subset isDir _ _ _ hmem
    exact safe_rmdb_removes _ (p ++ "_msaA3M_DB") s hs hmem2
  · intro f hchild hfile
    unfold MMseq.clean_stale_staging
    exact removeUnpackDir_removes_file_child isDir _ _ f h2 hchild hfile
  · intro hflat
    unfold MMseq.clean_stale_staging
    refine removeUnpackDir_flat isDir _ _ h2 ?_
    intro g hg hp
    exact hflat g (safe_rmdb_subset true _ _ g (safe_rmdb_subset true _ _ g hg)) hp

/-- Witness for claim C6 (amended): a concrete flat listing holding a
stale result-database index file, the msa database, the unpack directory
with one plain-file child, and an unrelated file; no name is a
directory except the unpack directory itself, which the isDir map may
ignore since only children are consulted. -/
theorem C6_staging_reset_scope_witness :
    (("q" ++ "_resultDB" ++ ".index") ∉ MMseq.clean_stale_staging true true
        (fun _ => false)
        ["q_resultDB.index", "q_msaA3M_DB", "q_a3m_tmp", "q_a3m_tmp/0.a3m", "other"] "q")
    ∧ (("q" ++ "_msaA3M_DB" ++ ".index") ∉ MMseq.clean_stale_staging true true
        (fun _ => false)
        ["q_resultDB.index", "q_msaA3M_DB", "q_a3m_tmp", "q_a3m_tmp/0.a3m", "other"] "q")
    ∧ ("q_a3m_tmp/0.a3m" ∉ MMseq.clean_stale_staging true true
        (fun _ => false)
        ["q_resultDB.index", "q_msaA3M_DB", "q_a3m_tmp", "q_a3m_tmp/0.a3m", "other"] "q")
    ∧ (("q" ++ "_a3m_tmp") ∉ MMseq.clean_stale_staging true true
        (fun _ => false)
        ["q_resultDB.index", "q_msaA3M_DB", "q_a3m_tmp", "q_a3m_tmp/0.a3m", "other"] "q"
      ∧ ∀ f ∈ MMseq.clean_stale_staging true true
        (fun _ => false)
        ["q_resultDB.index", "q_msaA3M_DB", "q_a3m_tmp", "q_a3m_tmp/0.a3m", "other"] "q",
        strStartsWith f ("q" ++ "_a3m_tmp" ++ "/") = false) := by
  have h := C6_staging_reset_scope "q"
      ["q_resultDB.index", "q_msaA3M_DB", "q_a3m_tmp", "q_a3m_tmp/0.a3m", "other"]
      ".index" (fun _ => false) (by decide) (by decide)
  exact ⟨h.1, h.2.1, h.2.2.1 "q_a3m_tmp/0.a3m" (by decide) rfl, h.2.2.2 (by decide)⟩

/-- Claim C7: the resolver first treats the joined candidate path as a
direct file; when it is a directory instead, it selects the first entry
(in the directory's listing order, which is fixed for an unchanged
directory, so repeated calls return the same file) of the first nonempty
extension tier in the fixed priority order fasta, fa, faa; when the
candidate is a directory with no tier match, or absent, it raises
FileNotFoundError. -/
theorem C7_resolver (r p f : String) (l es : List String) :
    (GpuInf.find_fasta_for_protein r p .file = .ok (r ++ "/" ++ p)) ∧
    (es.filter (fun f => strEndsWith f ".fasta") = f :: l →
      GpuInf.find_fasta_for_protein r p (.dir es) = .ok (r ++ "/" ++ p ++ "/" ++ f)) ∧
    (es.filter (fun f => strEndsWith f ".fasta") = [] →
      es.filter (fun f => strEndsWith f ".fa") = f :: l →
      GpuInf.find_fasta_for_protein r p (.dir es) = .ok (r ++ "/" ++ p ++ "/" ++ f)) ∧
    (es.filter (fun f => strEndsWith f ".fasta") = [] →
      es.filter (fun f => strEndsWith f ".fa") = [] →
      es.filter (fun f => strEndsWith f ".faa") = f :: l →
      GpuInf.find_fasta_for_protein r p (.dir es) = .ok (r ++ "/" ++ p ++ "/" ++ f)) ∧
    (es.filter (fun f => strEndsWith f ".fasta") = [] →
      es.filter (fun f => strEndsWith f ".fa") = [] →
      es.filter (fun f => strEndsWith f ".faa") = [] →
      GpuInf.find_fasta_for_protein r p (.dir es)
        = .error ("Could not find FASTA for protein " ++ p ++ " under " ++ r)) ∧
    (GpuInf.find_fasta_for_protein r p .absent
      = .error ("Could not find FASTA for protein " ++ p ++ " under " ++ r)) := by
  refine ⟨rfl, ?_, ?_, ?_, ?_, rfl⟩
  · intro h1
    simp [GpuInf.find_fasta_for_protein, h1]
  · intro h1 h2
    simp [GpuInf.find_fasta_for_protein, h1, h2]
  · intro h1 h2 h3
    simp [GpuInf.find_fasta_for_protein, h1, h2, h3]
  · intro h1 h2 h3
    simp [GpuInf.find_fasta_for_protein, h1, h2, h3]

/-- Witness for claim C7: a directory listing with no fasta-extension
entry and two fa-extension entries resolves to the first fa entry in
listing order. -/
theorem C7_resolver_witness :
    GpuInf.find_fasta_for_protein "/data" "prot" (.dir ["b.fa", "a.fa", "notes.txt"])
      = .ok ("/data" ++ "/" ++ "prot" ++ "/" ++ "b.fa") :=
  (C7_resolver "/data" "prot" "b.fa" ["a.fa"] ["b.fa", "a.fa", "notes.txt"]).2.2.1
    (by decide) (by decide)

/-- Claim C8: when the consumer is invoked for a target whose alignment
directory under the alignments root does not exist, main raises
FileNotFoundError (the missing-alignments error) before the inference
subprocess is started, and it never attempts to compute alignments
itself (the embedded main has no alignment-computing call to make: its
only subprocess launches the inference wrapper). -/
theorem C8_missing_alignments_fail_fast (w : GpuInf.GpuWorld)
    (pid fr ar cp : String)
    (h : w.alignSubdirs.contains (GpuInf.get_first_fasta_tag w.fastaContent) = false) :
    (GpuInf.run_gpu_main { w with alignRootIsDir := true, fastaNode := .file }
        pid fr ar cp).result
      = .error (.missingAlignments (GpuInf.get_first_fasta_tag w.fastaContent))
    ∧ (GpuInf.run_gpu_main { w with alignRootIsDir := true, fastaNode := .file }
        pid fr ar cp).inferenceInvoked = false := by
  have hm : GpuInf.get_first_fasta_tag w.fastaContent ∉ w.alignSubdirs := by
    simpa using h
  constructor
  · simp [GpuInf.run_gpu_main, GpuInf.find_fasta_for_protein, hm]
  · simp [GpuInf.run_gpu_main, GpuInf.find_fasta_for_protein, hm]

/-- Witness for claim C8: a concrete world whose alignments root holds
only an unrelated subdirectory while the FASTA header names protein1. -/
theorem C8_missing_alignments_fail_fast_witness :
    (GpuInf.run_gpu_main
        { alignRootIsDir := true, fastaNode := .file,
          fastaContent := [">protein1", "MKTAYIAK"], alignSubdirs := ["other"],
          checkpointIsFile := true, inferenceOk := true }
        "protein1.fasta" "/data/fasta" "/data/align" "/data/ckpt.pt").result
      = .error (.missingAlignments
          (GpuInf.get_first_fasta_tag [">protein1", "MKTAYIAK"]))
    ∧ (GpuInf.run_gpu_main
        { alignRootIsDir := true, fastaNode := .file,
          fastaContent := [">protein1", "MKTAYIAK"], alignSubdirs := ["other"],
          checkpointIsFile := true, inferenceOk := true }
        "protein1.fasta" "/data/fasta" "/data/align" "/data/ckpt.pt").inferenceInvoked
      = false :=
  C8_missing_alignments_fail_fast
    { alignRootIsDir := true, fastaNode := .file,
      fastaContent := [">protein1", "MKTAYIAK"], alignSubdirs := ["other"],
      checkpointIsFile := true, inferenceOk := true }
    "protein1.fasta" "/data/fasta" "/data/align" "/data/ckpt.pt" (by decide)
